import Mathlib

/-!
# Verification of the mini-studio core services

Shallow embedding of the core logic of the `mini-studio` repository:

* `app/database/redis.py` — the cache-aside tenant-configuration lookup
  (`AsyncRedisClientConfigManager.get_nested`, `get_client_config`);
* `app/services/fine_tuning/service.py` — job submission
  (`FineTuningService.submit_job`), the background job driver
  (`_background_process_job`) and job listing (`_list_jobs`);
* `app/services/inference/service.py` — routing lookup (`_find_routing`),
  the inference proxy (`infer_proxy`) and fine-tuned deployment
  (`deploy_fine_tuned_model`).

External collaborators (Redis, MongoDB, the filesystem, Ray, Kubernetes)
are modelled as explicit environments: each fallible collaborator call is
represented by an `Except`/`Option`-valued field of the environment so that
every exception path of the Python code is an explicit branch here.
-/

namespace MiniStudio

/-! ## JSON-like documents

MongoDB documents and decoded Redis payloads are nested string-keyed
mappings; `Json` is the value universe used by `get_nested`
(`redis.py` lines 32-39).  `truthy` mirrors Python truthiness of the
corresponding value (`None`, `0`, `""` and `{}` are falsy). -/

inductive Json where
  | null
  | num (n : Int)
  | str (s : String)
  | obj (fields : List (String × Json))

/-- Python truthiness of a decoded JSON value. -/
def Json.truthy : Json → Bool
  | .null => false
  | .num n => n != 0
  | .str s => s ≠ ""
  | .obj fields => !fields.isEmpty

/-- `dict.get` on a JSON object; `none` is Python's `None`. -/
def Json.getKey : Json → String → Option Json
  | .obj fields, k => (fields.find? (fun p => p.1 = k)).map (·.2)
  | _, _ => none

/-- Loop body of `get_nested` (`redis.py` lines 35-38): starting from a
current value (`none` = Python `None`), walk the remaining key segments;
a non-dict current value short-circuits to `None`. -/
def getNestedLoop : Option Json → List String → Option Json
  | d, [] => d
  | some (Json.obj fields), k :: ks =>
      getNestedLoop ((Json.obj fields).getKey k) ks
  | _, _ :: _ => none

/-- `AsyncRedisClientConfigManager.get_nested(data, attr_key)` for a string
`attr_key` (`redis.py` lines 32-39): split on `"."` and traverse. -/
def get_nested (data : Json) (attr_key : String) : Option Json :=
  getNestedLoop (some data) (attr_key.splitOn ".")

/-! ## The Redis cache and the Mongo config store

A cached value is either a well-formed serialization of a document
(`json.dumps` output — always a non-empty, hence truthy, string) or a
corrupt entry on which `json.loads` raises.  Each Redis operation may
raise, controlled by a per-key failure flag of the environment;
`redis.py` wraps none of the individual operations in its own handler, so
the flags let us place an exception at any single call site. -/

inductive CVal where
  | good (j : Json)
  | corrupt

structure Cache where
  st : String → Option CVal
  failGet : String → Bool
  failDel : String → Bool
  failSet : String → Bool
  failExpire : String → Bool

/-- `await self._redis.get(key)`: raises or returns the entry. -/
def cacheGet (c : Cache) (k : String) : Except Unit (Option CVal) :=
  if c.failGet k then .error () else .ok (c.st k)

/-- `await self._redis.delete(key)`. -/
def cacheDelete (c : Cache) (k : String) : Except Unit Cache :=
  if c.failDel k then .error ()
  else .ok { c with st := fun x => if x = k then none else c.st x }

/-- `await self._redis.set(key, json.dumps(v))`. -/
def cacheSet (c : Cache) (k : String) (v : CVal) : Except Unit Cache :=
  if c.failSet k then .error ()
  else .ok { c with st := fun x => if x = k then some v else c.st x }

/-- `await self._redis.expire(key, ttl)`: only the failure matters here;
the TTL clock itself is outside the model. -/
def cacheExpire (c : Cache) (k : String) : Except Unit Unit :=
  if c.failExpire k then .error () else .ok ()

/-- The `client_config` Mongo collection: `find_one({"client_code": k})`
after the projection, with a store error already collapsed to `none` by
`_load_client_config_from_mongo` (`redis.py` lines 57-61). -/
def Store := String → Option Json

/-! ## `get_client_config` (`redis.py` lines 63-84)

The Python function is recursive with no structural bound: when the store
has no (truthy) document it calls itself with the `"default"` tenant.  We
embed one invocation body as `gccStep`, which either finishes (`done`) or
requests the fallback re-invocation (`fallback`), and drive it with an
explicit fuel counter; exhausting every fuel bound means the Python code
performs more than that many recursive calls, i.e. never returns. -/

inductive GCCRes where
  | ok (v : Option Json)
  | raised
  | diverge

inductive StepRes where
  | done (r : GCCRes) (c : Cache)
  | fallback (c : Cache)

/-- Python truthiness of the `attrs: Optional[str]` argument. -/
def attrsTruthy : Option String → Bool
  | none => false
  | some a => a ≠ ""

/-- The value `get_client_config` returns after a successful store read
of document `d` (`redis.py` lines 81-83): the `attrs` traversal when
`attrs` is truthy, the whole document otherwise. -/
def storeReturn (d : Json) (attrs : Option String) : GCCRes :=
  match attrs with
  | some a => if a = "" then .ok (some d) else .ok (get_nested d a)
  | none => .ok (some d)

/-- Lines 76-84: the code after the `try` block.  `config_data` is truthy
only for a found, non-empty document; on success the document is written
back to the cache (`set` then `expire`, either may raise) and the same
attribute traversal is applied; otherwise the function re-invokes itself
with the `"default"` tenant code. -/
def gccStore (c : Cache) (s : Store) (k : String) (attrs : Option String) :
    StepRes :=
  match s k with
  | some d =>
      if d.truthy then
        match cacheSet c k (CVal.good d) with
        | .error _ => .done .raised c
        | .ok c1 =>
            match cacheExpire c1 k with
            | .error _ => .done .raised c1
            | .ok _ => .done (storeReturn d attrs) c1
      else .fallback c
  | none => .fallback c

/-- Lines 73-74: the bare `except` handler deletes the cache entry (this
delete is itself unprotected: if it raises, the exception escapes to the
caller) and control then falls through to the store lookup. -/
def gccHandler (c : Cache) (s : Store) (k : String) (attrs : Option String) :
    StepRes :=
  match cacheDelete c k with
  | .error _ => .done .raised c
  | .ok c1 => gccStore c1 s k attrs

/-- One invocation body of `get_client_config` (lines 64-84).  Both arms of
the `if attrs:` test in the `try` block are textually identical (lines
65-68 and 69-72), so a single cache read is modelled; `get_nested` raises
exactly when `attrs` is `None` (`None.split` is an `AttributeError`),
which the bare `except` turns into a delete-and-fall-through. -/
def gccStep (c : Cache) (s : Store) (k : String) (attrs : Option String) :
    StepRes :=
  match cacheGet c k with
  | .error _ => gccHandler c s k attrs
  | .ok none => gccStore c s k attrs
  | .ok (some CVal.corrupt) => gccHandler c s k attrs
  | .ok (some (CVal.good j)) =>
      match attrs with
      | none => gccHandler c s k attrs
      | some a => .done (.ok (get_nested j a)) c

structure GCCOut where
  res : GCCRes
  cache : Cache

/-- `get_client_config(client_code, attrs)` with an explicit bound on the
number of self-invocations; `.diverge` records that the bound was
exhausted, i.e. that the Python recursion at line 84 ran at least that
deep. -/
def get_client_config : Nat → Cache → Store → String → Option String →
    GCCOut
  | 0, c, _, _, _ => ⟨.diverge, c⟩
  | fuel + 1, c, s, k, attrs =>
      match gccStep c s k attrs with
      | .done r c1 => ⟨r, c1⟩
      | .fallback c1 => get_client_config fuel c1 s "default" attrs

/-- A cache whose every operation succeeds, holding entries `st`. -/
def okCache (st : String → Option CVal) : Cache :=
  ⟨st, fun _ => false, fun _ => false, fun _ => false, fun _ => false⟩

/-- The empty, fully operational cache. -/
def emptyCache : Cache := okCache (fun _ => none)

/-- A document store with no documents at all. -/
def emptyStore : Store := fun _ => none

/-! ## Fine-tuning job submission
(`FineTuningService.submit_job`, `service.py` lines 262-393)

The normalized payload (lines 272-279) is a mapping; only the keys the
function reads are modelled.  `dataset_filename` is either an uploaded
file object, a string reference, or absent (`None`). -/

/-- Outcome of `_save_dataset` for an uploaded file: the DFS path the
bytes were persisted to, the S3 key (`None` when the best-effort mirror
failed or no bucket is configured), and `os.path.getsize` of the saved
file — `0` for an empty upload. -/
structure SavedDataset where
  dfs_path : String
  s3_key : Option String
  size_bytes : Nat
deriving DecidableEq

inductive DatasetRef where
  | upload
  | strRef (s : String)
  | absent
deriving DecidableEq

structure Payload where
  model_name : Option String
  client_code : Option String
  dataset_filename : DatasetRef
deriving DecidableEq

/-- A document of the `fine_tuning_datasets` collection, restricted to the
keys `submit_job` reads (lines 336-338). -/
structure DatasetDoc where
  dataset_dfs : Option String
  dataset_s3 : Option String
  size_bytes : Option Nat
  dataset_size_bytes : Option Nat
deriving DecidableEq

/-- Python `x or y` on an optional integer field: `None` and `0` are
falsy (line 338: `doc.get("size_bytes") or doc.get("dataset_size_bytes")
or 0`). -/
def pyOrNat : Option Nat → Nat → Nat
  | some n, d => if n = 0 then d else n
  | none, d => d

/-- Python `payload.get(k) or dflt` on an optional string: `None` and
`""` are falsy (line 285). -/
def pyOrStr : Option String → String → String
  | some s, d => if s = "" then d else s
  | none, d => d

/-- Python `str.strip()`: remove leading and trailing whitespace. -/
def pyStrip (s : String) : String :=
  String.mk
    (((s.data.dropWhile Char.isWhitespace).reverse.dropWhile
        Char.isWhitespace).reverse)

/-- External world of one `submit_job` call: the catalog lookup (the
`find_one({"$or": ...})` query over `dataset_s3` / `dataset_dfs` /
`filename` / `_id`, with a store error or absent `_db` collapsed to
`none`, lines 313-333), `os.path.exists`/`os.path.getsize` on the local
filesystem (`some none` = the path exists but `getsize` raises, which
line 345 turns into size `0`), the `_save_dataset` outcome for uploads
(`none` = the save raised, which the outer handler turns into an error
response), and the wall clock. -/
structure SubmitEnv where
  catalog : String → Option DatasetDoc
  fsSize : String → Option (Option Nat)
  savedUpload : Option SavedDataset
  now : Nat

inductive Status where
  | submitted
  | queued
  | running
  | completed
  | error
deriving DecidableEq

/-- The job document built at lines 363-383, restricted to the scalar
fields (the `request` sub-document replays the payload verbatim). -/
structure Job where
  job_id : String
  client_code : String
  status : Status
  created_at : Nat
  updated_at : Nat
  model_name : String
  dataset_dfs : Option String
  dataset_s3 : Option String
  dataset_size_bytes : Nat
  estimated_gpus : Nat
deriving DecidableEq

/-- `gpu_per_bytes = 48 * 1024 * 1024 * 1024` (line 358). -/
def gpu_per_bytes : Nat := 48 * 1024 * 1024 * 1024

/-- Line 359: `estimated_gpus = max(1, (dataset_size // gpu_per_bytes) + 1)`. -/
def estimatedGpus (dataset_size : Nat) : Nat :=
  max 1 (dataset_size / gpu_per_bytes + 1)

/-- The spec's formula, stated from the spec's words for comparison:
`max(1, ceil(dataset_size_bytes / gpu_memory_capacity_bytes))` with the
ceiling of a natural division written as `(n + d - 1) / d`. -/
def specEstimatedGpus (dataset_size : Nat) : Nat :=
  max 1 ((dataset_size + gpu_per_bytes - 1) / gpu_per_bytes)

inductive SubmitRes where
  | badRequest (msg : String)
  | serverError
  | created (job : Job)
deriving DecidableEq

/-- The job document constructed at lines 361-383 (the `job_id` is a
fresh UUID; it is abstracted as the fixed placeholder `"uuid"` since no
claim depends on its value). -/
def mkJob (env : SubmitEnv) (model_name client_code : String)
    (dfs : Option String) (s3 : Option String) (size : Nat) : Job :=
  { job_id := "uuid"
    client_code := client_code
    status := .submitted
    created_at := env.now
    updated_at := env.now
    model_name := model_name
    dataset_dfs := dfs
    dataset_s3 := s3
    dataset_size_bytes := size
    estimated_gpus := estimatedGpus size }

/-- `FineTuningService.submit_job` (lines 262-393), from payload
normalization to the persisted job.  On success the job is inserted with
`status = "submitted"` and the background driver is scheduled; the
driver's effect is modelled separately (`bgUpdates`). -/
def submit_job (env : SubmitEnv) (req : Payload) : SubmitRes :=
  match req.model_name with
  | none => .badRequest "model (model name) is required"
  | some m =>
      if m = "" then .badRequest "model (model name) is required"
      else
        match req.dataset_filename with
        | .upload =>
            match env.savedUpload with
            | none => .serverError
            | some saved =>
                .created (mkJob env m (pyOrStr req.client_code m)
                  (some saved.dfs_path) saved.s3_key saved.size_bytes)
        | .strRef s0 =>
            if pyStrip s0 = "" then
              .badRequest "dataset_filename (or dataset_id) is required"
            else
              match env.catalog (pyStrip s0) with
              | some doc =>
                  .created (mkJob env m (pyOrStr req.client_code m)
                    doc.dataset_dfs doc.dataset_s3
                    (pyOrNat doc.size_bytes (pyOrNat doc.dataset_size_bytes 0)))
              | none =>
                  match env.fsSize (pyStrip s0) with
                  | some szRes =>
                      .created (mkJob env m (pyOrStr req.client_code m)
                        (some (pyStrip s0)) none (szRes.getD 0))
                  | none =>
                      .badRequest
                        "dataset not found in database and not present as local path; please upload dataset via /fine_tuning/upload-dataset first or provide a valid dataset id/path"
        | .absent => .badRequest "dataset_filename (or dataset_id) is required"

/-! ## The background driver
(`FineTuningService._background_process_job`, lines 167-188)

`_update_job` (lines 86-95) absorbs Mongo failures by falling back to the
in-memory cache, but the model still lets any update call raise
(`updFail i` for the `i`-th `_update_job` call of the driver), so the
driver's two exception handlers are both exercised.  A raising update
writes nothing. -/

structure BgEnv where
  rayAvailable : Bool
  /-- `ray_client.submit_job(...)`: raises (`.error ()`), or returns a
  falsy (`.ok none`) or truthy (`.ok (some id)`) job id. -/
  submitRes : Except Unit (Option String)
  updFail : Nat → Bool
  errText : String
  now : Nat

/-- One `_update_job` payload as written by the driver: the new status,
an optional `error` text and an optional `ray_job_id` (Mongo `$set`
leaves absent keys untouched). -/
structure UpdPayload where
  status : Status
  error : Option String
  ray_job_id : Option String
deriving DecidableEq

/-- The sequence of successful `_update_job` writes performed by
`_background_process_job` (lines 167-188).  The inner `try` (lines
176-185) swallows any failure of the entrypoint build, the Ray submission
or the two `running` updates; the outer handler (lines 186-188) only sees
a failure of the initial `queued` update and then writes the `error`
record (that write itself escaping the handler if it raises). -/
def bgUpdates (e : BgEnv) : List UpdPayload :=
  if e.updFail 0 then
    if e.updFail 1 then []
    else [⟨.error, some e.errText, none⟩]
  else
    ⟨.queued, none, none⟩ ::
      (if e.rayAvailable then
        match e.submitRes with
        | .error _ => []
        | .ok none => []
        | .ok (some rid) =>
            if e.updFail 1 then []
            else ⟨.running, none, some rid⟩ ::
              (if e.updFail 2 then [] else [⟨.running, none, none⟩])
      else [])

/-- All status-bearing writes a job record receives: `submit_job` creates
it with `status = "submitted"` (line 366) synchronously, and every later
write happens on the background task. -/
def fullUpdates (e : BgEnv) : List UpdPayload :=
  ⟨.submitted, none, none⟩ :: bgUpdates e

/-- The mutable part of the persisted job record. -/
structure JobRec where
  status : Status
  error : Option String
  ray_job_id : Option String
deriving DecidableEq

/-- Mongo `$set` semantics of one update payload. -/
def applyUpd (j : JobRec) (u : UpdPayload) : JobRec :=
  { status := u.status
    error := u.error.orElse (fun _ => j.error)
    ray_job_id := u.ray_job_id.orElse (fun _ => j.ray_job_id) }

/-- The job record after the submission call and the background driver
have finished. -/
def finalJob (e : BgEnv) : JobRec :=
  (fullUpdates e).foldl applyUpd ⟨.submitted, none, none⟩

/-! ## Listing jobs (`FineTuningService._list_jobs`, lines 106-113) -/

/-- The Mongo sort order `sort("created_at", -1)`: newest first. -/
def newestFirst (a b : Job) : Prop := b.created_at ≤ a.created_at

instance : DecidableRel newestFirst := fun a b =>
  Nat.decLe b.created_at a.created_at

instance : IsTotal Job newestFirst := ⟨fun a b => le_total b.created_at a.created_at⟩

instance : IsTrans Job newestFirst := ⟨fun _ _ _ h1 h2 => le_trans h2 h1⟩

/-- `_list_jobs(client_code)`: when the Mongo collection is usable the
query `find({"client_code": client_code}).sort("created_at", -1)` returns
the tenant's documents newest first (the store's sort is modelled as an
insertion sort by descending `created_at`); when the collection is absent
or the query raises, the fallback returns `list(self._jobs_cache.values())` —
every cached job, in insertion order. -/
def list_jobs (mongoOK : Bool) (stored : List Job) (cache : List Job)
    (client_code : String) : List Job :=
  if mongoOK then
    (stored.filter (fun j => j.client_code = client_code)).insertionSort
      newestFirst
  else cache

/-! ## Routing lookup and inference proxy
(`InferenceService._find_routing` lines 125-138, `infer_proxy` lines
221-234) -/

/-- A document of the `model_routing` collection as written by
`_save_routing` (lines 107-123). -/
structure RoutingEntry where
  deployment_name : String
  service_url : String
  model_name : String
  client_code : String
  is_base : Bool
deriving DecidableEq

def isExactMatch (m c : String) (e : RoutingEntry) : Bool :=
  e.model_name = m && e.client_code = c

def isBaseMatch (m : String) (e : RoutingEntry) : Bool :=
  e.model_name = m && e.is_base

/-- `_find_routing(model_name, client_code)`: with a truthy tenant code,
an exact `(model_name, client_code)` document is preferred and its
`service_url` returned as soon as the document is found; otherwise the
`is_base` document for the model; otherwise `None`.  `find_one` is the
first match in collection order; `dbFail` models the `except` branch
(lines 136-138) that collapses a store error to `None`. -/
def find_routing (dbFail : Bool) (table : List RoutingEntry)
    (model_name client_code : String) : Option String :=
  if dbFail then none
  else
    if client_code ≠ "" then
      match table.find? (isExactMatch model_name client_code) with
      | some doc => some doc.service_url
      | none => (table.find? (isBaseMatch model_name)).map (·.service_url)
    else (table.find? (isBaseMatch model_name)).map (·.service_url)

inductive InferRes where
  | notDeployed
  | forwarded (url : String)
deriving DecidableEq

/-- `infer_proxy(model_name, payload, client_code)` up to the downstream
POST: a falsy routing target (`None`, or an empty `service_url`) yields
the 404 `"Model not deployed"` response, otherwise the payload is
forwarded to `target + "/predict"`. -/
def infer_proxy (dbFail : Bool) (table : List RoutingEntry)
    (model_name client_code : String) : InferRes :=
  match find_routing dbFail table model_name client_code with
  | none => .notDeployed
  | some target =>
      if target = "" then .notDeployed else .forwarded (target ++ "/predict")

/-! ## Fine-tuned model deployment
(`InferenceService.deploy_fine_tuned_model`, lines 170-219)

Each Kubernetes create call is a collaborator operation that either
succeeds or raises an `ApiException` carrying an HTTP status.  `K8sEnv`
gives the outcome of the four create calls of one invocation. -/

structure FTDeployReq where
  client_code : String
  base_model : String
  fine_tuned_weights_path : String
deriving DecidableEq

def pvcName (req : FTDeployReq) : String := "pvc-" ++ req.client_code

def ftDeploymentName (req : FTDeployReq) : String :=
  "vllm-ft-" ++ req.client_code ++ "-" ++ req.base_model

def ftServiceName (req : FTDeployReq) : String :=
  ftDeploymentName req ++ "-svc"

def ftScaledObjectName (req : FTDeployReq) : String :=
  ftDeploymentName req ++ "-scaledobject"

/-- Outcomes of the four `create_namespaced_*` calls of one
`deploy_fine_tuned_model` invocation; an `ApiException` is `.error s`
with `s` its HTTP status code. -/
structure K8sEnv where
  pvcRes : Except Nat Unit
  depRes : Except Nat Unit
  svcRes : Except Nat Unit
  soRes : Except Nat Unit

inductive DeployRes where
  | raisedApi (status : Nat)
  | deployed (deployment_name : String)
deriving DecidableEq

/-- `deploy_fine_tuned_model(req)` (lines 170-219): the PVC create's
`ApiException` is re-raised unless its status is 409 (lines 189-194);
any `ApiException` from the deployment, service or scaled-object create
is re-raised (lines 208-219).  The `_save_routing` upsert swallows its
own store errors and cannot fail the call. -/
def deploy_fine_tuned (env : K8sEnv) (req : FTDeployReq) : DeployRes :=
  match env.pvcRes with
  | .error s =>
      if s ≠ 409 then .raisedApi s
      else deployRest env req
  | .ok _ => deployRest env req
where
  deployRest (env : K8sEnv) (req : FTDeployReq) : DeployRes :=
    match env.depRes with
    | .error s => .raisedApi s
    | .ok _ =>
        match env.svcRes with
        | .error s => .raisedApi s
        | .ok _ =>
            match env.soRes with
            | .error s => .raisedApi s
            | .ok _ => .deployed (ftDeploymentName req)

/-- Objects existing in the cluster, by kind. -/
structure ClusterSt where
  pvcs : List String
  deps : List String
  svcs : List String
  sos : List String
deriving DecidableEq

/-- Modelled from the spec: the container-orchestration backend
(spec §6) surfaces a structured 409 "already exists" error when a create
names an existing object, and succeeds on a fresh name.  This
instantiates `K8sEnv` from the cluster contents for one
`deploy_fine_tuned_model` call. -/
def clusterEnv (st : ClusterSt) (req : FTDeployReq) : K8sEnv :=
  { pvcRes := if pvcName req ∈ st.pvcs then .error 409 else .ok ()
    depRes := if ftDeploymentName req ∈ st.deps then .error 409 else .ok ()
    svcRes := if ftServiceName req ∈ st.svcs then .error 409 else .ok ()
    soRes := if ftScaledObjectName req ∈ st.sos then .error 409 else .ok () }

/-- Cluster contents after a successful `deploy_fine_tuned_model` call:
every object the call created (the PVC only if it was not already
there). -/
def clusterAfter (st : ClusterSt) (req : FTDeployReq) : ClusterSt :=
  { pvcs := if pvcName req ∈ st.pvcs then st.pvcs else pvcName req :: st.pvcs
    deps := ftDeploymentName req :: st.deps
    svcs := ftServiceName req :: st.svcs
    sos := ftScaledObjectName req :: st.sos }

/-! ## Helper notions used by the theorems -/

/-- Collapse consecutive duplicates: the sequence of distinct values a
record's status field takes over time, given the sequence of writes. -/
def dedupAdj : List Status → List Status
  | [] => []
  | [a] => [a]
  | a :: b :: t => if a = b then dedupAdj (b :: t) else a :: dedupAdj (b :: t)

/-- Adjacent pairs of a list: the directly observed transitions. -/
def adjPairs : List Status → List (Status × Status)
  | a :: b :: t => (a, b) :: adjPairs (b :: t)
  | _ => []

/-- A cluster with no objects. -/
def emptyCluster : ClusterSt := ⟨[], [], [], []⟩

/-- A sound cache holding `{"x": 7}` for tenant `"acme"`. -/
def C9cache : Cache :=
  okCache (fun x =>
    if x = "acme" then some (CVal.good (Json.obj [("x", Json.num 7)]))
    else none)

/-- A store holding `{"y": 8}` for tenant `"acme"`. -/
def C9store : Store := fun x =>
  if x = "acme" then some (Json.obj [("y", Json.num 8)]) else none

/-- Whether a submission outcome is a 400-style rejection. -/
def isBadRequest : SubmitRes → Bool
  | .badRequest _ => true
  | _ => false

/-- Routing table with one tenant-specific and one base entry for
`"m1"`. -/
def C4table : List RoutingEntry :=
  [⟨"dep-t1-m1", "http://u1", "m1", "t1", false⟩,
   ⟨"dep-base-m1", "http://u2", "m1", "", true⟩]

/-- Catalog holding a record with both size keys absent, which
`submit_job` resolves to size `0`. -/
def C6cexEnv : SubmitEnv :=
  { catalog := fun s =>
      if s = "ds0" then some ⟨some "/dfs/f", none, none, none⟩ else none
    fsSize := fun _ => none
    savedUpload := none
    now := 0 }

def C6cexReq : Payload := ⟨some "m", some "t", .strRef "ds0"⟩

/-- The job `submit_job C6cexEnv C6cexReq` creates. -/
def C6cexJob : Job :=
  ⟨"uuid", "t", .submitted, 0, 0, "m", some "/dfs/f", none, 0, 1⟩

/-- An environment with no catalog records and no local files. -/
def C6wEnv : SubmitEnv :=
  ⟨fun _ => none, fun _ => none, none, 0⟩

/-- The `estimated_gpus` field of a created job, `none` otherwise. -/
def submittedGpus : SubmitRes → Option Nat
  | .created j => some j.estimated_gpus
  | _ => none

/-- Submission environment whose catalog holds one dataset record of
exactly one GPU's worth of bytes (`48 GiB`). -/
def C1cexEnv : SubmitEnv :=
  { catalog := fun s =>
      if s = "dsx" then
        some ⟨some "/dfs/dsx", none, some gpu_per_bytes, none⟩
      else none
    fsSize := fun _ => none
    savedUpload := none
    now := 0 }

def C1cexReq : Payload := ⟨some "llama", some "t1", .strRef "dsx"⟩

/-- Submission environment for the C1 witness: a 100-byte catalog
record. -/
def C1wEnv : SubmitEnv :=
  { catalog := fun s =>
      if s = "ds1" then some ⟨some "/dfs/ds1", none, some 100, none⟩
      else none
    fsSize := fun _ => none
    savedUpload := none
    now := 5 }

def C1wReq : Payload := ⟨some "llama", some "t1", .strRef "ds1"⟩

/-- The job `submit_job C1wEnv C1wReq` persists. -/
def C1wJob : Job :=
  ⟨"uuid", "t1", .submitted, 5, 5, "llama", some "/dfs/ds1", none, 100, 1⟩

/-- An older job of tenant `"t1"`. -/
def C8jobA : Job :=
  ⟨"j-a", "t1", .submitted, 100, 100, "m1", some "/dfs/a", none, 10, 1⟩

/-- A newer job of tenant `"t2"`. -/
def C8jobB : Job :=
  ⟨"j-b", "t2", .submitted, 200, 200, "m1", some "/dfs/b", none, 10, 1⟩

/-! # Theorems -/

/-- C2: when the document store holds no document for the requested
tenant nor for `"default"`, `get_client_config` never returns at all:
for every recursion bound the computation is still recursing (line 84
re-invokes the function unconditionally on a store miss, also when the
tenant already is `"default"`), so the call never produces the not-found
result the claim requires — in Python it recurses until
`RecursionError`. -/
theorem C2_double_miss_diverges (fuel : Nat) (k : String)
    (attrs : Option String) :
    (get_client_config fuel emptyCache emptyStore k attrs).res =
      GCCRes.diverge := by
  induction fuel generalizing k with
  | zero => rfl
  | succ n ih =>
      simpa [get_client_config, gccStep, gccStore, cacheGet, emptyCache,
        okCache, emptyStore] using ih "default"

/-- C8 (amended): on the document-store path `_list_jobs` returns exactly
the tenant's jobs, newest first; on the in-memory fallback path it
returns every cached job unchanged — unfiltered and in insertion
order. -/
theorem C8_list_jobs_paths (stored cache : List Job) (client_code : String) :
    ((list_jobs true stored cache client_code).Perm
        (stored.filter (fun j => j.client_code = client_code))
      ∧ (∀ j ∈ list_jobs true stored cache client_code,
          j.client_code = client_code)
      ∧ (list_jobs true stored cache client_code).Sorted newestFirst)
    ∧ list_jobs false stored cache client_code = cache := by
  refine ⟨⟨List.perm_insertionSort _ _, ?_, ?_⟩, rfl⟩
  · intro j hj
    have hmem : j ∈ stored.filter (fun j => j.client_code = client_code) := by
      simpa [list_jobs] using hj
    have := List.of_mem_filter hmem
    simpa using this
  · simpa [list_jobs] using
      List.sorted_insertionSort newestFirst
        (stored.filter (fun j => j.client_code = client_code))

/-- C8 counterexample: with the document store unavailable, listing the
jobs of tenant `"t1"` from a cache holding one `"t1"` job (older) and one
`"t2"` job (newer) returns both cached jobs in insertion order — the
claimed tenant filter and newest-first order both fail on the fallback
path. -/
theorem C8_counterexample :
    list_jobs false [] [C8jobA, C8jobB] "t1" = [C8jobA, C8jobB]
    ∧ C8jobB ∈ list_jobs false [] [C8jobA, C8jobB] "t1"
    ∧ C8jobB.client_code ≠ "t1"
    ∧ C8jobB.created_at > C8jobA.created_at := by
  refine ⟨rfl, ?_, ?_, ?_⟩ <;> decide

/-- Every job `submit_job` creates carries the line-359 estimate of its
own persisted dataset size. -/
lemma submit_created_gpus (env : SubmitEnv) (req : Payload) (j : Job)
    (h : submit_job env req = SubmitRes.created j) :
    j.estimated_gpus = estimatedGpus j.dataset_size_bytes := by
  unfold submit_job at h
  repeat' split at h
  all_goals first
    | exact (SubmitRes.noConfusion h)
    | (injection h with h; subst h; rfl)

/-- Arithmetic of line 359 versus the spec's ceiling formula. -/
lemma estimatedGpus_props (size : Nat) :
    estimatedGpus size = size / gpu_per_bytes + 1
    ∧ 1 ≤ estimatedGpus size
    ∧ (size = 0 → estimatedGpus size = 1)
    ∧ (¬ gpu_per_bytes ∣ size →
        estimatedGpus size = specEstimatedGpus size)
    ∧ (0 < size → gpu_per_bytes ∣ size →
        estimatedGpus size = specEstimatedGpus size + 1) := by
  unfold estimatedGpus specEstimatedGpus gpu_per_bytes
  norm_num
  omega

/-- C1 (amended): the persisted `estimated_gpus` is
`max(1, dataset_size_bytes // capacity + 1)` — a floor-plus-one, not a
ceiling: it is always `≥ 1` and is `1` at size `0`, it equals
`ceil(size / capacity)` for sizes that are not positive multiples of the
48-GiB capacity, and exceeds the ceiling by exactly one on positive exact
multiples. -/
theorem C1_floor_based_gpus (env : SubmitEnv) (req : Payload) (j : Job)
    (h : submit_job env req = SubmitRes.created j) :
    j.estimated_gpus = j.dataset_size_bytes / gpu_per_bytes + 1
    ∧ 1 ≤ j.estimated_gpus
    ∧ (j.dataset_size_bytes = 0 → j.estimated_gpus = 1)
    ∧ (¬ gpu_per_bytes ∣ j.dataset_size_bytes →
        j.estimated_gpus = specEstimatedGpus j.dataset_size_bytes)
    ∧ (0 < j.dataset_size_bytes → gpu_per_bytes ∣ j.dataset_size_bytes →
        j.estimated_gpus = specEstimatedGpus j.dataset_size_bytes + 1) := by
  rw [submit_created_gpus env req j h]
  exact estimatedGpus_props _

/-- Witness for C1 at a concrete 100-byte dataset. -/
theorem C1_floor_based_gpus_witness :
    C1wJob.estimated_gpus = C1wJob.dataset_size_bytes / gpu_per_bytes + 1
    ∧ 1 ≤ C1wJob.estimated_gpus
    ∧ (C1wJob.dataset_size_bytes = 0 → C1wJob.estimated_gpus = 1)
    ∧ (¬ gpu_per_bytes ∣ C1wJob.dataset_size_bytes →
        C1wJob.estimated_gpus = specEstimatedGpus C1wJob.dataset_size_bytes)
    ∧ (0 < C1wJob.dataset_size_bytes →
        gpu_per_bytes ∣ C1wJob.dataset_size_bytes →
        C1wJob.estimated_gpus =
          specEstimatedGpus C1wJob.dataset_size_bytes + 1) :=
  C1_floor_based_gpus C1wEnv C1wReq C1wJob (by decide)

/-- C1 counterexample: a dataset of exactly 48 GiB — one full GPU's
capacity — is persisted with `estimated_gpus = 2`, while the claimed
formula `max(1, ceil(size / capacity))` gives `1`. -/
theorem C1_counterexample :
    submittedGpus (submit_job C1cexEnv C1cexReq) = some 2
    ∧ specEstimatedGpus gpu_per_bytes = 1 := by
  constructor <;> decide

/-- A cache read failure on a step with every write operation sound is
absorbed by the step: the step never finishes raised. -/
lemma gccStep_no_raise (c : Cache) (s : Store) (k : String)
    (attrs : Option String) (hdel : ∀ x, c.failDel x = false)
    (hset : ∀ x, c.failSet x = false) (hexp : ∀ x, c.failExpire x = false) :
    (∃ v c1, gccStep c s k attrs = .done (GCCRes.ok v) c1)
    ∨ (∃ c1, gccStep c s k attrs = .fallback c1
        ∧ c1.failDel = c.failDel ∧ c1.failSet = c.failSet
        ∧ c1.failExpire = c.failExpire) := by
  have hsr : ∀ d : Json, ∃ v, storeReturn d attrs = GCCRes.ok v := by
    intro d
    cases attrs with
    | none => exact ⟨some d, rfl⟩
    | some a =>
        by_cases ha : a = "" <;> simp [storeReturn, ha]
  unfold gccStep gccHandler gccStore cacheGet cacheDelete cacheSet
    cacheExpire
  simp [hdel, hset, hexp]
  repeat' split
  all_goals simp_all

/-- C3 (amended): an error raised by the cache read is absorbed and the
call falls through to the document store, provided the cache operations
performed afterwards — the recovery `delete` inside the handler and the
`set`/`expire` of the re-population — do not themselves raise; those
later cache errors are unprotected and propagate to the caller. -/
theorem C3_read_errors_absorbed :
    (∀ (fuel : Nat) (c : Cache) (s : Store) (k : String)
        (attrs : Option String),
      (∀ x, c.failDel x = false) → (∀ x, c.failSet x = false) →
      (∀ x, c.failExpire x = false) →
      (get_client_config fuel c s k attrs).res ≠ GCCRes.raised)
    ∧ (∀ (fuel : Nat) (c : Cache) (s : Store) (k : String)
        (attrs : Option String) (d : Json),
      c.failGet k = true → (∀ x, c.failDel x = false) →
      (∀ x, c.failSet x = false) → (∀ x, c.failExpire x = false) →
      s k = some d → d.truthy = true →
      (get_client_config (fuel + 1) c s k attrs).res = storeReturn d attrs) := by
  constructor
  · intro fuel c s k attrs hdel hset hexp
    induction fuel generalizing c k with
    | zero => simp [get_client_config]
    | succ n ih =>
        rcases gccStep_no_raise c s k attrs hdel hset hexp with
          ⟨v, c1, hstep⟩ | ⟨c1, hstep, hd, hs, he⟩
        · simp [get_client_config, hstep]
        · simp only [get_client_config, hstep]
          exact ih c1 "default" (hd ▸ hdel) (hs ▸ hset) (he ▸ hexp)
  · intro fuel c s k attrs d hget hdel hset hexp hs hd
    simp [get_client_config, gccStep, gccHandler, gccStore, cacheGet,
      cacheDelete, cacheSet, cacheExpire, hget, hdel, hset, hexp, hs, hd]

/-- Witness for C3 at a concrete environment: a cache whose read of
`"acme"` raises while every write succeeds, over a store holding a
document for `"acme"`. -/
theorem C3_read_errors_absorbed_witness :
    (get_client_config 3
        ⟨fun _ => none, fun x => x = "acme", fun _ => false, fun _ => false,
          fun _ => false⟩
        (fun x => if x = "acme" then some (Json.obj [("a", Json.num 1)])
          else none)
        "acme" (some "a")).res =
      storeReturn (Json.obj [("a", Json.num 1)]) (some "a") :=
  C3_read_errors_absorbed.2 2
    ⟨fun _ => none, fun x => x = "acme", fun _ => false, fun _ => false,
      fun _ => false⟩
    (fun x => if x = "acme" then some (Json.obj [("a", Json.num 1)])
      else none)
    "acme" (some "a") (Json.obj [("a", Json.num 1)])
    rfl (fun _ => rfl) (fun _ => rfl) (fun _ => rfl) rfl rfl

/-- C3 counterexample: with Redis unavailable for `"ghost"` (both the
read and the recovery delete raise), `get_client_config` propagates the
error to the caller even though the document store holds the tenant's
configuration — the claimed fall-through to the store does not happen. -/
theorem C3_counterexample :
    (get_client_config 3
        ⟨fun _ => none, fun x => x = "ghost", fun x => x = "ghost",
          fun _ => false, fun _ => false⟩
        (fun x => if x = "ghost" then some (Json.obj [("a", Json.num 1)])
          else none)
        "ghost" (some "a")).res = GCCRes.raised := rfl

/-- C9: a full-configuration lookup (`attrs = None`) is never served from
the cache: with a cache entry present (well-formed or corrupt) and every
cache operation sound, the traversal of the `None` attribute path raises
inside the `try` block, the handler deletes the cached entry, and the
result is re-read from the document store, whose document is returned and
written back to the cache. -/
theorem C9_full_config_bypasses_cache (c : Cache) (s : Store) (k : String)
    (cv : CVal) (d : Json) (fuel : Nat)
    (hget : c.failGet k = false) (hdel : c.failDel k = false)
    (hset : c.failSet k = false) (hexp : c.failExpire k = false)
    (hcv : c.st k = some cv) (hs : s k = some d) (hd : d.truthy = true) :
    (get_client_config (fuel + 1) c s k none).res = GCCRes.ok (some d)
    ∧ (get_client_config (fuel + 1) c s k none).cache.st k =
        some (CVal.good d)
    ∧ ∀ x, x ≠ k →
        (get_client_config (fuel + 1) c s k none).cache.st x = c.st x := by
  refine ⟨?_, ?_, ?_⟩
  · cases cv <;>
      simp [get_client_config, gccStep, gccHandler, gccStore, cacheGet,
        cacheDelete, cacheSet, cacheExpire, storeReturn, hget, hdel, hset,
        hexp, hcv, hs, hd]
  · cases cv <;>
      simp [get_client_config, gccStep, gccHandler, gccStore, cacheGet,
        cacheDelete, cacheSet, cacheExpire, storeReturn, hget, hdel, hset,
        hexp, hcv, hs, hd]
  · intro x hx
    cases cv <;>
      simp [get_client_config, gccStep, gccHandler, gccStore, cacheGet,
        cacheDelete, cacheSet, cacheExpire, storeReturn, hget, hdel, hset,
        hexp, hcv, hs, hd, hx]

/-- Witness for C9: tenant `"acme"` has the cached document
`{"x": 7}` but the store holds `{"y": 8}`; the full-config call returns
the store's document, not the cached one, and re-populates the cache
with it. -/
theorem C9_full_config_bypasses_cache_witness :
    (get_client_config 2 C9cache C9store "acme" none).res =
      GCCRes.ok (some (Json.obj [("y", Json.num 8)]))
    ∧ (get_client_config 2 C9cache C9store "acme" none).cache.st "acme" =
        some (CVal.good (Json.obj [("y", Json.num 8)])) :=
  ⟨(C9_full_config_bypasses_cache C9cache C9store "acme"
      (CVal.good (Json.obj [("x", Json.num 7)]))
      (Json.obj [("y", Json.num 8)]) 1 rfl rfl rfl rfl rfl rfl rfl).1,
    (C9_full_config_bypasses_cache C9cache C9store "acme"
      (CVal.good (Json.obj [("x", Json.num 7)]))
      (Json.obj [("y", Json.num 8)]) 1 rfl rfl rfl rfl rfl rfl rfl).2.1⟩

/-- C5: for every behaviour of the collaborators, the sequence of
distinct status values the job record takes — `submitted` written
synchronously by `submit_job`, everything later written by the background
driver — is a subsequence of `submitted, queued, running, (completed |
error)`, and the observed transitions never step from `submitted`
directly to `running`. -/
theorem C5_status_subsequence (e : BgEnv) :
    ∃ t, (t = Status.completed ∨ t = Status.error) ∧
      (dedupAdj ((fullUpdates e).map UpdPayload.status)).Sublist
        [Status.submitted, Status.queued, Status.running, t]
      ∧ (Status.submitted, Status.running) ∉
          adjPairs (dedupAdj ((fullUpdates e).map UpdPayload.status)) := by
  refine ⟨Status.error, Or.inr rfl, ?_⟩
  cases h0 : e.updFail 0 <;> cases h1 : e.updFail 1 <;>
    cases h2 : e.updFail 2 <;> cases hr : e.rayAvailable <;>
    rcases hs : e.submitRes with _ | (_ | rid) <;>
    simp [fullUpdates, bgUpdates, h0, h1, h2, hr, hs, dedupAdj, adjPairs]

/-- C10: when the Ray submission inside the background driver raises, or
returns a falsy job id, and no update raises, the job record ends with
status `"queued"`, no error text and no execution handle (the inner
failure is only logged); conversely the `"error"` status can only be
written when the initial `queued` update — the only statement of the
outer `try` outside the inner block — raised. -/
theorem C10_inner_failure_leaves_queued (e : BgEnv) :
    ((∀ n, e.updFail n = false) → e.rayAvailable = true →
      (e.submitRes = Except.error () ∨ e.submitRes = Except.ok none) →
      finalJob e = ⟨Status.queued, none, none⟩)
    ∧ ((finalJob e).status = Status.error → e.updFail 0 = true) := by
  constructor
  · intro hupd hray hsub
    rcases hsub with h | h <;>
      simp [finalJob, fullUpdates, bgUpdates, hupd, hray, h, applyUpd]
  · intro hst
    by_contra hfail
    have h0 : e.updFail 0 = false := by
      cases h : e.updFail 0
      · rfl
      · exact absurd h hfail
    revert hst
    cases h1 : e.updFail 1 <;> cases h2 : e.updFail 2 <;>
      cases hr : e.rayAvailable <;>
      rcases hs : e.submitRes with _ | (_ | rid) <;>
      simp [finalJob, fullUpdates, bgUpdates, h0, h1, h2, hr, hs, applyUpd]

/-- C4: `infer_proxy` routes to the `service_url` of the exact
`(model_name, client_code)` routing document when one exists, otherwise
to the base document for the model, otherwise it answers the 404
`"Model not deployed"` response — for a truthy tenant code, a reachable
routing collection, and entries carrying non-empty service URLs (as
`_save_routing` always writes). -/
theorem C4_routing_precedence (table : List RoutingEntry) (m c : String)
    (hc : c ≠ "") (hurl : ∀ e ∈ table, e.service_url ≠ "") :
    (∀ e, table.find? (isExactMatch m c) = some e →
      infer_proxy false table m c =
        InferRes.forwarded (e.service_url ++ "/predict"))
    ∧ (table.find? (isExactMatch m c) = none →
      ∀ e, table.find? (isBaseMatch m) = some e →
        infer_proxy false table m c =
          InferRes.forwarded (e.service_url ++ "/predict"))
    ∧ (table.find? (isExactMatch m c) = none →
      table.find? (isBaseMatch m) = none →
      infer_proxy false table m c = InferRes.notDeployed) := by
  refine ⟨?_, ?_, ?_⟩
  · intro e he
    have hu := hurl e (List.mem_of_find?_eq_some he)
    simp [infer_proxy, find_routing, hc, he, hu]
  · intro hnone e he
    have hu := hurl e (List.mem_of_find?_eq_some he)
    simp [infer_proxy, find_routing, hc, hnone, he, hu]
  · intro h1 h2
    simp [infer_proxy, find_routing, hc, h1, h2]

/-- Witness for C4: the spec's three-scenario table — a `"t1"` entry and
a base entry for `"m1"` — routed for `("m1","t1")`, `("m1","t2")` and
`("m2","t1")`. -/
theorem C4_routing_precedence_witness :
    infer_proxy false C4table "m1" "t1" =
      InferRes.forwarded ("http://u1" ++ "/predict")
    ∧ infer_proxy false C4table "m1" "t2" =
      InferRes.forwarded ("http://u2" ++ "/predict")
    ∧ infer_proxy false C4table "m2" "t1" = InferRes.notDeployed :=
  ⟨(C4_routing_precedence C4table "m1" "t1" (by decide) (by decide)).1 _ rfl,
   (C4_routing_precedence C4table "m1" "t2" (by decide) (by decide)).2.1
      rfl _ rfl,
   (C4_routing_precedence C4table "m2" "t1" (by decide) (by decide)).2.2
      rfl rfl⟩

/-- C6 (amended): `submit_job` rejects a missing dataset reference and a
string reference that is neither a catalog record nor an existing local
path, but it performs no size validation: a catalog hit always creates
the job, carrying whatever size the record yields — including `0`. -/
theorem C6_resolution_errors :
    (∀ (env : SubmitEnv) (req : Payload) (s : String),
      req.dataset_filename = DatasetRef.strRef s →
      env.catalog (pyStrip s) = none → env.fsSize (pyStrip s) = none →
      isBadRequest (submit_job env req) = true)
    ∧ (∀ (env : SubmitEnv) (req : Payload),
      req.dataset_filename = DatasetRef.absent →
      isBadRequest (submit_job env req) = true)
    ∧ (∀ (env : SubmitEnv) (req : Payload) (s : String) (doc : DatasetDoc)
        (m : String),
      req.model_name = some m → m ≠ "" →
      req.dataset_filename = DatasetRef.strRef s → pyStrip s ≠ "" →
      env.catalog (pyStrip s) = some doc →
      ∃ j, submit_job env req = SubmitRes.created j ∧
        j.dataset_size_bytes =
          pyOrNat doc.size_bytes (pyOrNat doc.dataset_size_bytes 0)) := by
  refine ⟨?_, ?_, ?_⟩
  · intro env req s hds hcat hfs
    rcases hm : req.model_name with _ | m
    · simp [submit_job, hm, isBadRequest]
    · by_cases hm0 : m = ""
      · simp [submit_job, hm, hm0, isBadRequest]
      · by_cases hs0 : pyStrip s = ""
        · simp [submit_job, hm, hm0, hds, hs0, isBadRequest]
        · simp [submit_job, hm, hm0, hds, hs0, hcat, hfs, isBadRequest]
  · intro env req hds
    rcases hm : req.model_name with _ | m
    · simp [submit_job, hm, isBadRequest]
    · by_cases hm0 : m = ""
      · simp [submit_job, hm, hm0, isBadRequest]
      · simp [submit_job, hm, hm0, hds, isBadRequest]
  · intro env req s doc m hm hm0 hds hs0 hcat
    refine ⟨mkJob env m (pyOrStr req.client_code m) doc.dataset_dfs
      doc.dataset_s3 (pyOrNat doc.size_bytes (pyOrNat doc.dataset_size_bytes 0)),
      ?_, rfl⟩
    simp [submit_job, hm, hm0, hds, hs0, hcat]

/-- Witness for C6 at concrete inputs: an unknown reference is rejected,
and a catalog record with no recorded size creates a job of size `0`. -/
theorem C6_resolution_errors_witness :
    isBadRequest (submit_job C6wEnv ⟨some "m", none, .strRef "nope"⟩) = true
    ∧ isBadRequest (submit_job C6wEnv ⟨some "m", none, .absent⟩) = true :=
  ⟨C6_resolution_errors.1 C6wEnv ⟨some "m", none, .strRef "nope"⟩ "nope"
      rfl rfl rfl,
   C6_resolution_errors.2.1 C6wEnv ⟨some "m", none, .absent⟩ rfl⟩

/-- C6 counterexample: a catalog record that resolves to size `0` is
accepted — `submit_job` creates the job (size `0`, one GPU) instead of
returning an error. -/
theorem C6_counterexample :
    submit_job C6cexEnv C6cexReq = SubmitRes.created C6cexJob
    ∧ C6cexJob.dataset_size_bytes = 0 := by
  constructor <;> decide

/-- C7 (amended): two fine-tuned deploys for the same tenant succeed when
their deployment names differ (distinct base models): the second call's
PVC create reports 409 "already exists" and is ignored.  A non-409 PVC
error, and any `ApiException` from the deployment, service or
scaled-object create, is fatal and surfaced — so repeating an identical
deploy fails on the workload object's 409. -/
theorem C7_pvc_idempotent (r1 r2 : FTDeployReq)
    (hcc : r1.client_code = r2.client_code)
    (hdep : ftDeploymentName r2 ≠ ftDeploymentName r1)
    (hsvc : ftServiceName r2 ≠ ftServiceName r1)
    (hso : ftScaledObjectName r2 ≠ ftScaledObjectName r1) :
    (deploy_fine_tuned (clusterEnv emptyCluster r1) r1 =
        DeployRes.deployed (ftDeploymentName r1)
      ∧ (clusterEnv (clusterAfter emptyCluster r1) r2).pvcRes =
          Except.error 409
      ∧ deploy_fine_tuned (clusterEnv (clusterAfter emptyCluster r1) r2) r2 =
          DeployRes.deployed (ftDeploymentName r2))
    ∧ (∀ (env : K8sEnv) (r : FTDeployReq) (s : Nat),
        env.pvcRes = Except.error s → s ≠ 409 →
        deploy_fine_tuned env r = DeployRes.raisedApi s)
    ∧ (∀ (env : K8sEnv) (r : FTDeployReq) (s : Nat),
        (env.pvcRes = Except.ok () ∨ env.pvcRes = Except.error 409) →
        env.depRes = Except.error s →
        deploy_fine_tuned env r = DeployRes.raisedApi s)
    ∧ (∀ (env : K8sEnv) (r : FTDeployReq) (s : Nat),
        (env.pvcRes = Except.ok () ∨ env.pvcRes = Except.error 409) →
        env.depRes = Except.ok () → env.svcRes = Except.error s →
        deploy_fine_tuned env r = DeployRes.raisedApi s)
    ∧ (∀ (env : K8sEnv) (r : FTDeployReq) (s : Nat),
        (env.pvcRes = Except.ok () ∨ env.pvcRes = Except.error 409) →
        env.depRes = Except.ok () → env.svcRes = Except.ok () →
        env.soRes = Except.error s →
        deploy_fine_tuned env r = DeployRes.raisedApi s) := by
  have hpvc : pvcName r2 = pvcName r1 := by
    simp [pvcName, hcc]
  refine ⟨⟨?_, ?_, ?_⟩, ?_, ?_, ?_, ?_⟩
  · simp [deploy_fine_tuned, deploy_fine_tuned.deployRest, clusterEnv,
      emptyCluster]
  · simp [clusterEnv, clusterAfter, emptyCluster, hpvc]
  · simp [deploy_fine_tuned, deploy_fine_tuned.deployRest, clusterEnv,
      clusterAfter, emptyCluster, hpvc, hdep, hsvc, hso]
  · intro env r s h1 h2
    simp [deploy_fine_tuned, h1, h2]
  · intro env r s h1 h2
    rcases h1 with h1 | h1 <;>
      simp [deploy_fine_tuned, deploy_fine_tuned.deployRest, h1, h2]
  · intro env r s h1 h2 h3
    rcases h1 with h1 | h1 <;>
      simp [deploy_fine_tuned, deploy_fine_tuned.deployRest, h1, h2, h3]
  · intro env r s h1 h2 h3 h4
    rcases h1 with h1 | h1 <;>
      simp [deploy_fine_tuned, deploy_fine_tuned.deployRest, h1, h2, h3, h4]

/-- Witness for C7: tenant `"t1"` deploys `"llama"` and then
`"mistral"`; both succeed although the second PVC create hits 409. -/
theorem C7_pvc_idempotent_witness :
    deploy_fine_tuned
        (clusterEnv (clusterAfter emptyCluster ⟨"t1", "llama", "/w1"⟩)
          ⟨"t1", "mistral", "/w2"⟩)
        ⟨"t1", "mistral", "/w2"⟩ =
      DeployRes.deployed (ftDeploymentName ⟨"t1", "mistral", "/w2"⟩) :=
  (C7_pvc_idempotent ⟨"t1", "llama", "/w1"⟩ ⟨"t1", "mistral", "/w2"⟩
      rfl (by decide) (by decide) (by decide)).1.2.2

/-- C7 counterexample: issuing the *identical* fine-tuned deploy twice
does not succeed twice — the second call's deployment create reports 409
"already exists", which (unlike the PVC's) is re-raised to the caller. -/
theorem C7_counterexample :
    deploy_fine_tuned (clusterEnv emptyCluster ⟨"t1", "llama", "/w1"⟩)
        ⟨"t1", "llama", "/w1"⟩ =
      DeployRes.deployed "vllm-ft-t1-llama"
    ∧ deploy_fine_tuned
        (clusterEnv (clusterAfter emptyCluster ⟨"t1", "llama", "/w1"⟩)
          ⟨"t1", "llama", "/w1"⟩)
        ⟨"t1", "llama", "/w1"⟩ =
      DeployRes.raisedApi 409 := by
  constructor <;> decide

/-- Witness for C10 at a concrete environment: Ray available, the
submission raising, all updates succeeding. -/
theorem C10_inner_failure_leaves_queued_witness :
    finalJob ⟨true, Except.error (), fun _ => false, "boom", 7⟩ =
      ⟨Status.queued, none, none⟩ :=
  (C10_inner_failure_leaves_queued
      ⟨true, Except.error (), fun _ => false, "boom", 7⟩).1
    (fun _ => rfl) rfl (Or.inl rfl)

end MiniStudio
